import Mathlib

/-!
Verification of the toytcp user-space TCP engine.

The definitions below are a shallow embedding of the Rust sources
`src/toytcp/src/tcp.rs` and `src/toytcp/src/socket.rs`.  Machine integers
are modelled as `Nat`; `u32` additions that can genuinely wrap are taken
modulo `2 ^ 32`.  Rust subtractions and slice indexing that panic (in a
debug build) or index out of bounds (in a release build) are modelled with
`Option`, where `none` marks a call that aborts on either build.  Per-socket
handlers become pure functions from a socket state and an inbound packet to
a new socket state, the list of emitted segments, and the list of published
events.
-/

namespace ToyTcp

/-- Modulus for 32-bit unsigned arithmetic. -/
def u32Mod : Nat := 2 ^ 32

/-- Modulus for 16-bit unsigned arithmetic. -/
def u16Mod : Nat := 2 ^ 16

/-- `SOCKET_BUFFER_SIZE` from `socket.rs`. -/
def SOCKET_BUFFER_SIZE : Nat := 4380

/-- `MSS` from `tcp.rs`. -/
def MSS : Nat := 1460

/-- `MAX_TRANSMITTION` from `tcp.rs`. -/
def MAX_TRANSMITTION : Nat := 5

/-- `RETRANSMITTION_TIMEOUT` from `tcp.rs`, in seconds. -/
def RETRANSMITTION_TIMEOUT : Nat := 3

/-- Lower end of `PORT_RANGE` from `tcp.rs`. -/
def PORT_RANGE_START : Nat := 40000

/-- Upper end of `PORT_RANGE` from `tcp.rs`. -/
def PORT_RANGE_END : Nat := 60000

namespace tcpflags

/-- Modelled from the spec: the `tcpflags` module is not under `src/`; the
spec fixes the wire format to the standard TCP header with flags limited to
SYN, ACK, FIN, so the constants are the standard TCP flag bits. -/
def FIN : Nat := 1

/-- Modelled from the spec: standard TCP SYN flag bit. -/
def SYN : Nat := 2

/-- Modelled from the spec: standard TCP ACK flag bit. -/
def ACK : Nat := 16

end tcpflags

/-- Modelled from the spec: the segment codec (`packet.rs`) is not under
`src/`; the spec treats it as an external serializer exposing accessors for
seq, ack, flags, window and payload, so a segment is modelled as a record of
those fields (ports and checksum play no role in the claims). -/
structure TCPPacket where
  seq : Nat
  ack : Nat
  flag : Nat
  window_size : Nat
  payload : List Nat
deriving DecidableEq

/-- `RetransmissionQueueEntry` from `socket.rs`. -/
structure RetransmissionQueueEntry where
  packet : TCPPacket
  latest_transmission_time : Nat
  transmission_count : Nat
deriving DecidableEq

/-- `SendParam` from `socket.rs`. -/
structure SendParam where
  unacked_seq : Nat
  next : Nat
  window : Nat
  initial_seq : Nat
deriving DecidableEq

/-- `RecvParam` from `socket.rs`. -/
structure RecvParam where
  next : Nat
  window : Nat
  initial_seq : Nat
  tail : Nat
deriving DecidableEq

/-- `TcpStatus` from `socket.rs`. -/
inductive TcpStatus
  | Listen
  | SynSent
  | SynRcvd
  | Established
  | FinWait1
  | FinWait2
  | TimeWait
  | CloseWait
  | LastAck
deriving DecidableEq

/-- `TCPEventKind` from `tcp.rs`. -/
inductive TCPEventKind
  | ConnectionCompleted
  | Acked
  | DataArrived
  | ConnectionClosed
deriving DecidableEq

/-- The mutable per-connection state of `Socket` from `socket.rs` (the
four-tuple, the transport handle and the listener queue play no role in the
claims about a single endpoint). -/
structure Socket where
  send_param : SendParam
  recv_param : RecvParam
  status : TcpStatus
  recv_buffer : List Nat
  retransmission_queue : List RetransmissionQueueEntry
deriving DecidableEq

/-- Checked subtraction: `none` models a Rust subtraction that underflows
(panic in a debug build; in a release build every such site in the embedded
code is followed by a slice access that goes out of bounds and panics). -/
def checkedSub (a b : Nat) : Option Nat :=
  if b ≤ a then some (a - b) else none

/-- `Socket::send_tcp_packet` from `socket.rs`: build the segment (window
field taken from `recv_param.window`), hand it to the transport, and append
a retransmission entry with `transmission_count = 1` and
`latest_transmission_time = now` unless the segment is a pure ACK with empty
payload.  Returns the new socket state and the segment that was sent. -/
def send_tcp_packet (s : Socket) (seq ack flag : Nat) (payload : List Nat) (now : Nat) :
    Socket × TCPPacket :=
  let pkt : TCPPacket :=
    { seq := seq, ack := ack, flag := flag,
      window_size := s.recv_param.window, payload := payload }
  if payload = [] ∧ flag = tcpflags.ACK then
    (s, pkt)
  else
    ({ s with retransmission_queue := s.retransmission_queue ++
        [{ packet := pkt, latest_transmission_time := now, transmission_count := 1 }] },
     pkt)

/-- An entry carries payload, SYN, or FIN. -/
def carriesPayloadSynFin (e : RetransmissionQueueEntry) : Prop :=
  e.packet.payload ≠ [] ∨
    e.packet.flag &&& tcpflags.SYN ≠ 0 ∨ e.packet.flag &&& tcpflags.FIN ≠ 0

instance (e : RetransmissionQueueEntry) : Decidable (carriesPayloadSynFin e) := by
  unfold carriesPayloadSynFin
  infer_instance

/-- The complete set of flag arguments the program passes to
`send_tcp_packet`: `SYN` (connect), `SYN ||| ACK` (listen handler), `ACK`
(everywhere else), `FIN ||| ACK` (close). -/
def programFlag (flag : Nat) : Prop :=
  flag = tcpflags.SYN ∨ flag = tcpflags.SYN ||| tcpflags.ACK ∨
    flag = tcpflags.ACK ∨ flag = tcpflags.FIN ||| tcpflags.ACK

instance (flag : Nat) : Decidable (programFlag flag) := by
  unfold programFlag
  infer_instance

/-- C3: every call to `send_tcp_packet` appends a retransmission entry with
`tx_count = 1` and `last_tx_time = now` exactly when the segment has nonempty
payload or a flag other than pure ACK; a pure-ACK no-payload segment leaves
the queue untouched; and the queue-wide invariant that every entry carries
payload, SYN, or FIN is preserved for every flag value the program uses. -/
theorem c3_retransmission_enqueue_iff (s : Socket) (seq ack flag : Nat)
    (payload : List Nat) (now : Nat) (hflag : programFlag flag) :
    ((send_tcp_packet s seq ack flag payload now).1.retransmission_queue =
        s.retransmission_queue ++
          [{ packet := (send_tcp_packet s seq ack flag payload now).2,
             latest_transmission_time := now, transmission_count := 1 }] ↔
      (payload ≠ [] ∨ flag ≠ tcpflags.ACK)) ∧
    (payload = [] ∧ flag = tcpflags.ACK →
      (send_tcp_packet s seq ack flag payload now).1 = s) ∧
    ((∀ e ∈ s.retransmission_queue, carriesPayloadSynFin e) →
      ∀ e ∈ (send_tcp_packet s seq ack flag payload now).1.retransmission_queue,
        carriesPayloadSynFin e) := by
  refine ⟨?_, ?_, ?_⟩
  · by_cases hpure : payload = [] ∧ flag = tcpflags.ACK
    · obtain ⟨hp, hf⟩ := hpure
      subst hp
      subst hf
      simp [send_tcp_packet]
    · simp only [send_tcp_packet, if_neg hpure]
      refine iff_of_true trivial ?_
      rcases Decidable.not_and_iff_or_not.mp hpure with h | h
      · exact Or.inl h
      · exact Or.inr h
  · intro hpure
    obtain ⟨hp, hf⟩ := hpure
    subst hp
    subst hf
    simp [send_tcp_packet]
  · intro hall e he
    by_cases hpure : payload = [] ∧ flag = tcpflags.ACK
    · simp only [send_tcp_packet, if_pos hpure] at he
      exact hall e he
    · simp only [send_tcp_packet, if_neg hpure, List.mem_append,
        List.mem_singleton] at he
      rcases he with he | he
      · exact hall e he
      · subst he
        rcases Decidable.not_and_iff_or_not.mp hpure with h | h
        · exact Or.inl h
        · rcases hflag with hf | hf | hf | hf
          · subst hf
            refine Or.inr (Or.inl ?_)
            show tcpflags.SYN &&& tcpflags.SYN ≠ 0
            decide
          · subst hf
            refine Or.inr (Or.inl ?_)
            show (tcpflags.SYN ||| tcpflags.ACK) &&& tcpflags.SYN ≠ 0
            decide
          · exact absurd hf h
          · subst hf
            refine Or.inr (Or.inr ?_)
            show (tcpflags.FIN ||| tcpflags.ACK) &&& tcpflags.FIN ≠ 0
            decide

/-- Witness for C3 at concrete inputs: a `FIN ||| ACK` segment with empty
payload is enqueued, and a pure-ACK empty-payload segment is not. -/
theorem c3_retransmission_enqueue_iff_witness :
    programFlag (tcpflags.FIN ||| tcpflags.ACK) ∧
      (send_tcp_packet
          { send_param := { unacked_seq := 0, next := 0, window := 10, initial_seq := 0 },
            recv_param := { next := 0, window := 10, initial_seq := 0, tail := 0 },
            status := TcpStatus.Established, recv_buffer := [], retransmission_queue := [] }
          5 7 (tcpflags.FIN ||| tcpflags.ACK) [] 3).1.retransmission_queue =
        [] ++
          [{ packet := (send_tcp_packet
                { send_param := { unacked_seq := 0, next := 0, window := 10, initial_seq := 0 },
                  recv_param := { next := 0, window := 10, initial_seq := 0, tail := 0 },
                  status := TcpStatus.Established, recv_buffer := [],
                  retransmission_queue := [] }
                5 7 (tcpflags.FIN ||| tcpflags.ACK) [] 3).2,
             latest_transmission_time := 3, transmission_count := 1 }] := by
  refine ⟨by decide, ?_⟩
  exact ((c3_retransmission_enqueue_iff _ 5 7 (tcpflags.FIN ||| tcpflags.ACK) [] 3
      (by decide)).1).mpr (by decide)

/-- Overwrite `data.length` bytes of `buf` starting at `offset`
(the effect of `recv_buffer[offset..offset + copy_size].copy_from_slice`,
meaningful when `offset + data.length ≤ buf.length`). -/
def writeAt (buf : List Nat) (offset : Nat) (data : List Nat) : List Nat :=
  buf.take offset ++ data ++ buf.drop (offset + data.length)

/-- `TCP::process_payload` from `tcp.rs`.  The offset is
`(recv_buffer.len() - recv.window) + (seg.seq - recv.next)` with no guard on
either subtraction; a result of `none` marks an input on which the Rust code
aborts (in a debug build the unsigned subtraction panics; in a release build
it wraps and the subsequent slice access is out of bounds).  On success the
result is the new socket state, the emitted segments, and the published
events. -/
def process_payload (s : Socket) (pkt : TCPPacket) (now : Nat) :
    Option (Socket × List TCPPacket × List TCPEventKind) :=
  match checkedSub s.recv_buffer.length s.recv_param.window with
  | none => none
  | some used =>
    match checkedSub pkt.seq s.recv_param.next with
    | none => none
    | some delta =>
      let offset := used + delta
      match checkedSub s.recv_buffer.length offset with
      | none => none
      | some room =>
        let copy_size := min pkt.payload.length room
        let buf := writeAt s.recv_buffer offset (pkt.payload.take copy_size)
        let tail2 := max s.recv_param.tail ((pkt.seq + copy_size) % u32Mod)
        let sA : Socket :=
          { s with
            recv_buffer := buf,
            recv_param := { s.recv_param with tail := tail2 } }
        let sB? : Option Socket :=
          if pkt.seq = sA.recv_param.next then
            match checkedSub sA.recv_param.window ((tail2 - pkt.seq) % u16Mod) with
            | none => none
            | some w => some { sA with recv_param :=
                { sA.recv_param with next := tail2, window := w } }
          else some sA
        match sB? with
        | none => none
        | some sB =>
          if 0 < copy_size then
            let r := send_tcp_packet sB sB.send_param.next sB.recv_param.next
              tcpflags.ACK [] now
            some (r.1, [r.2], [TCPEventKind.DataArrived])
          else
            some (sB, [], [TCPEventKind.DataArrived])

/-- The loop body of
`TCP::delete_acked_segment_from_retransmission_queue` (and of the drain
phase of the timer loop): pop entries whose `seq` is below `una`, returning
the remaining queue, the total payload length of the popped entries, and the
number of popped entries. -/
def drainQueue (una : Nat) : List RetransmissionQueueEntry →
    List RetransmissionQueueEntry × Nat × Nat
  | [] => ([], 0, 0)
  | e :: rest =>
    if e.packet.seq < una then
      let r := drainQueue una rest
      (r.1, e.packet.payload.length + r.2.1, r.2.2 + 1)
    else (e :: rest, 0, 0)

/-- Total payload length of a list of retransmission entries. -/
def payloadSum (q : List RetransmissionQueueEntry) : Nat :=
  (q.map (fun e => e.packet.payload.length)).sum

/-- `TCP::delete_acked_segment_from_retransmission_queue` from `tcp.rs`:
drain acked entries, add each drained payload length to the send window, and
publish one `Acked` event per drained entry. -/
def delete_acked_segment_from_retransmission_queue (s : Socket) :
    Socket × List TCPEventKind :=
  let r := drainQueue s.send_param.unacked_seq s.retransmission_queue
  ({ s with
      retransmission_queue := r.1,
      send_param := { s.send_param with window := s.send_param.window + r.2.1 } },
   List.replicate r.2.2 TCPEventKind.Acked)

/-- The part of `TCP::established_handler` after the ACK accounting: drop the
segment if the ACK bit is unset, otherwise process a nonempty payload and
handle a FIN (advance `recv.next` to `seg.seq + 1`, emit a pure ACK, move to
CLOSE_WAIT, publish `DataArrived`).  `evs` are the events already published
by the ACK accounting. -/
def established_rest (s : Socket) (evs : List TCPEventKind) (pkt : TCPPacket)
    (now : Nat) : Option (Socket × List TCPPacket × List TCPEventKind) :=
  if pkt.flag &&& tcpflags.ACK = 0 then
    some (s, [], evs)
  else
    match (if pkt.payload ≠ [] then process_payload s pkt now
           else some (s, [], [])) with
    | none => none
    | some (s1, sent, evs2) =>
      if 0 < pkt.flag &&& tcpflags.FIN then
        let s2 : Socket := { s1 with recv_param :=
          { s1.recv_param with next := (pkt.seq + 1) % u32Mod } }
        let r := send_tcp_packet s2 s2.send_param.next s2.recv_param.next
          tcpflags.ACK [] now
        some ({ r.1 with status := TcpStatus.CloseWait }, sent ++ [r.2],
          evs ++ evs2 ++ [TCPEventKind.DataArrived])
      else
        some (s1, sent, evs ++ evs2)

/-- `TCP::established_handler` from `tcp.rs`: if
`unacked_seq < seg.ack ≤ next`, record the ACK and drain the retransmission
queue; otherwise, if `next < seg.ack`, drop the segment; then continue with
`established_rest`. -/
def established_handler (s : Socket) (pkt : TCPPacket) (now : Nat) :
    Option (Socket × List TCPPacket × List TCPEventKind) :=
  if s.send_param.unacked_seq < pkt.ack ∧ pkt.ack ≤ s.send_param.next then
    let s1 : Socket := { s with send_param :=
      { s.send_param with unacked_seq := pkt.ack } }
    let r := delete_acked_segment_from_retransmission_queue s1
    established_rest r.1 r.2 pkt now
  else if s.send_param.next < pkt.ack then
    some (s, [], [])
  else
    established_rest s [] pkt now

/-- `TCP::close_handler` from `tcp.rs` (CLOSE_WAIT and LAST_ACK states):
unconditionally record `send.unacked_seq = seg.ack`. -/
def close_handler (s : Socket) (pkt : TCPPacket) : Socket :=
  { s with send_param := { s.send_param with unacked_seq := pkt.ack } }

/-- The FIN_WAIT_1 to FIN_WAIT_2 transition of `TCP::finwait_handler`: taken
once the sent FIN is acknowledged (`next = unacked_seq`). -/
def finwait2_step (s : Socket) : Socket :=
  if s.status = TcpStatus.FinWait1 ∧
      s.send_param.next = s.send_param.unacked_seq then
    { s with status := TcpStatus.FinWait2 }
  else s

/-- The part of `TCP::finwait_handler` after the ACK accounting: process a
nonempty payload, move FIN_WAIT_1 to FIN_WAIT_2 once `next = unacked_seq`,
and on a FIN increment `recv.next`, emit a pure ACK and publish
`ConnectionClosed`. -/
def finwait_rest (s : Socket) (evs : List TCPEventKind) (pkt : TCPPacket)
    (now : Nat) : Option (Socket × List TCPPacket × List TCPEventKind) :=
  match (if pkt.payload ≠ [] then process_payload s pkt now
         else some (s, [], [])) with
  | none => none
  | some (s1, sent, evs2) =>
    let s2 : Socket := finwait2_step s1
    if 0 < pkt.flag &&& tcpflags.FIN then
      let s3 : Socket := { s2 with recv_param :=
        { s2.recv_param with next := (s2.recv_param.next + 1) % u32Mod } }
      let r := send_tcp_packet s3 s3.send_param.next s3.recv_param.next
        tcpflags.ACK [] now
      some (r.1, sent ++ [r.2], evs ++ evs2 ++ [TCPEventKind.ConnectionClosed])
    else
      some (s2, sent, evs ++ evs2)

/-- `TCP::finwait_handler` from `tcp.rs` (FIN_WAIT_1 and FIN_WAIT_2): same
ACK accounting as `established_handler`, then `finwait_rest`. -/
def finwait_handler (s : Socket) (pkt : TCPPacket) (now : Nat) :
    Option (Socket × List TCPPacket × List TCPEventKind) :=
  if s.send_param.unacked_seq < pkt.ack ∧ pkt.ack ≤ s.send_param.next then
    let s1 : Socket := { s with send_param :=
      { s.send_param with unacked_seq := pkt.ack } }
    let r := delete_acked_segment_from_retransmission_queue s1
    finwait_rest r.1 r.2 pkt now
  else if s.send_param.next < pkt.ack then
    some (s, [], [])
  else
    finwait_rest s [] pkt now

theorem send_tcp_packet_pure_ack (s : Socket) (seq ack now : Nat) :
    send_tcp_packet s seq ack tcpflags.ACK [] now =
      (s, { seq := seq, ack := ack, flag := tcpflags.ACK,
            window_size := s.recv_param.window, payload := [] }) := by
  simp [send_tcp_packet]

theorem checkedSub_some {a b c : Nat} (h : checkedSub a b = some c) :
    b ≤ a ∧ c = a - b := by
  unfold checkedSub at h
  split at h
  · exact ⟨by assumption, (Option.some.injEq _ _).mp h |>.symm⟩
  · exact absurd h (by simp)

theorem drainQueue_eq (una : Nat) (q : List RetransmissionQueueEntry) :
    drainQueue una q =
      (q.dropWhile (fun e => decide (e.packet.seq < una)),
       payloadSum (q.takeWhile (fun e => decide (e.packet.seq < una))),
       (q.takeWhile (fun e => decide (e.packet.seq < una))).length) := by
  induction q with
  | nil => simp [drainQueue, payloadSum]
  | cons e rest ih =>
    by_cases h : e.packet.seq < una
    · simp [drainQueue, List.dropWhile_cons, List.takeWhile_cons, h, ih, payloadSum,
        Nat.add_comm]
    · simp [drainQueue, List.dropWhile_cons, List.takeWhile_cons, h, payloadSum]

theorem delete_acked_send_param (s : Socket) :
    (delete_acked_segment_from_retransmission_queue s).1.send_param.unacked_seq =
        s.send_param.unacked_seq ∧
      (delete_acked_segment_from_retransmission_queue s).1.send_param.next =
        s.send_param.next ∧
      (delete_acked_segment_from_retransmission_queue s).1.recv_param = s.recv_param ∧
      (delete_acked_segment_from_retransmission_queue s).1.status = s.status ∧
      (delete_acked_segment_from_retransmission_queue s).1.recv_buffer = s.recv_buffer :=
  ⟨rfl, rfl, rfl, rfl, rfl⟩

theorem process_payload_frame {s : Socket} {pkt : TCPPacket} {now : Nat}
    {r : Socket × List TCPPacket × List TCPEventKind}
    (h : process_payload s pkt now = some r) :
    r.1.send_param = s.send_param ∧
      r.1.retransmission_queue = s.retransmission_queue ∧
      r.1.status = s.status ∧ r.2.2 = [TCPEventKind.DataArrived] := by
  unfold process_payload at h
  split at h
  · exact absurd h (by simp)
  · split at h
    · exact absurd h (by simp)
    · dsimp only at h
      split at h
      · exact absurd h (by simp)
      · split at h
        · exact absurd h (by simp)
        · rename_i sB heq
          split at heq
          · split at heq
            · exact absurd heq (by simp)
            · cases heq
              split at h
              · rw [send_tcp_packet_pure_ack] at h
                cases h
                exact ⟨rfl, rfl, rfl, rfl⟩
              · cases h
                exact ⟨rfl, rfl, rfl, rfl⟩
          · cases heq
            split at h
            · rw [send_tcp_packet_pure_ack] at h
              cases h
              exact ⟨rfl, rfl, rfl, rfl⟩
            · cases h
              exact ⟨rfl, rfl, rfl, rfl⟩

theorem established_rest_frame {s : Socket} {evs : List TCPEventKind}
    {pkt : TCPPacket} {now : Nat}
    {r : Socket × List TCPPacket × List TCPEventKind}
    (h : established_rest s evs pkt now = some r) :
    r.1.send_param = s.send_param ∧
      r.1.retransmission_queue = s.retransmission_queue ∧
      ∃ t, r.2.2 = evs ++ t := by
  unfold established_rest at h
  split at h
  · cases h
    exact ⟨rfl, rfl, [], by simp⟩
  · split at h
    · exact absurd h (by simp)
    · rename_i s1 sent evs2 heq
      have hf : s1.send_param = s.send_param ∧
          s1.retransmission_queue = s.retransmission_queue := by
        by_cases hp : pkt.payload ≠ []
        · rw [if_pos hp] at heq
          have := process_payload_frame heq
          exact ⟨this.1, this.2.1⟩
        · rw [if_neg hp] at heq
          cases heq
          exact ⟨rfl, rfl⟩
      dsimp only at h
      by_cases hfin : 0 < pkt.flag &&& tcpflags.FIN
      · rw [if_pos hfin, send_tcp_packet_pure_ack] at h
        cases h
        exact ⟨hf.1, hf.2, evs2 ++ [TCPEventKind.DataArrived], by simp⟩
      · rw [if_neg hfin] at h
        cases h
        exact ⟨hf.1, hf.2, evs2, rfl⟩

theorem finwait2_step_frame (s : Socket) :
    (finwait2_step s).send_param = s.send_param ∧
      (finwait2_step s).retransmission_queue = s.retransmission_queue ∧
      (finwait2_step s).recv_param = s.recv_param ∧
      (finwait2_step s).recv_buffer = s.recv_buffer := by
  unfold finwait2_step
  split
  · exact ⟨rfl, rfl, rfl, rfl⟩
  · exact ⟨rfl, rfl, rfl, rfl⟩

theorem finwait_rest_frame {s : Socket} {evs : List TCPEventKind}
    {pkt : TCPPacket} {now : Nat}
    {r : Socket × List TCPPacket × List TCPEventKind}
    (h : finwait_rest s evs pkt now = some r) :
    r.1.send_param = s.send_param ∧
      r.1.retransmission_queue = s.retransmission_queue := by
  unfold finwait_rest at h
  split at h
  · exact absurd h (by simp)
  · rename_i s1 sent evs2 heq
    have hf : s1.send_param = s.send_param ∧
        s1.retransmission_queue = s.retransmission_queue := by
      by_cases hp : pkt.payload ≠ []
      · rw [if_pos hp] at heq
        have := process_payload_frame heq
        exact ⟨this.1, this.2.1⟩
      · rw [if_neg hp] at heq
        cases heq
        exact ⟨rfl, rfl⟩
    dsimp only at h
    by_cases hfin : 0 < pkt.flag &&& tcpflags.FIN
    · rw [if_pos hfin, send_tcp_packet_pure_ack] at h
      cases h
      exact ⟨(finwait2_step_frame s1).1.trans hf.1,
        (finwait2_step_frame s1).2.1.trans hf.2⟩
    · rw [if_neg hfin] at h
      cases h
      exact ⟨(finwait2_step_frame s1).1.trans hf.1,
        (finwait2_step_frame s1).2.1.trans hf.2⟩

/-- An ESTABLISHED socket that has already received up to sequence number
100 (`recv.next = 100`, empty receive buffer). -/
def c1Socket : Socket :=
  { send_param := { unacked_seq := 0, next := 0, window := 4, initial_seq := 0 },
    recv_param := { next := 100, window := 4, initial_seq := 0, tail := 100 },
    status := TcpStatus.Established,
    recv_buffer := [0, 0, 0, 0],
    retransmission_queue := [] }

/-- A retransmitted data segment whose sequence number 50 lies below
`recv.next = 100` and which carries a nonempty payload. -/
def c1Packet : TCPPacket :=
  { seq := 50, ack := 0, flag := tcpflags.ACK, window_size := 9, payload := [7] }

/-- C1: the code violates the claim.  `established_handler` performs no
`seg.seq < recv.next` drop before `process_payload`, so an already-received
retransmit with nonempty payload reaches the index computation
`(buffer_len - recv.window) + (seg.seq - recv.next)`, whose second
subtraction underflows; the embedded handler aborts (`none`), matching the
panic of the Rust code on such a segment. -/
theorem c1_process_payload_underflow_aborts :
    c1Packet.seq < c1Socket.recv_param.next ∧
      process_payload c1Socket c1Packet 0 = none ∧
      established_handler c1Socket c1Packet 0 = none := by
  refine ⟨by decide, by decide, by decide⟩

/-- A LAST_ACK socket with `unacked_seq = next = 5` (its FIN has been sent
and everything up to 5 is in flight). -/
def c2Socket : Socket :=
  { send_param := { unacked_seq := 5, next := 5, window := 10, initial_seq := 0 },
    recv_param := { next := 0, window := 10, initial_seq := 0, tail := 0 },
    status := TcpStatus.LastAck,
    recv_buffer := [],
    retransmission_queue := [] }

/-- A segment whose ack field 10 exceeds everything the socket ever sent. -/
def c2Packet : TCPPacket :=
  { seq := 0, ack := 10, flag := tcpflags.ACK, window_size := 0, payload := [] }

/-- C2 counterexample: the CLOSE_WAIT/LAST_ACK handler does not preserve
SND.UNA ≤ SND.NXT.  From a state satisfying the invariant
(`unacked_seq = next = 5`), a segment with `ack = 10 > next` makes
`close_handler` set `unacked_seq = 10`, so the resulting state violates it. -/
theorem c2_close_handler_violates_una_le_next :
    c2Socket.send_param.unacked_seq ≤ c2Socket.send_param.next ∧
      (close_handler c2Socket c2Packet).send_param.next <
        (close_handler c2Socket c2Packet).send_param.unacked_seq := by
  refine ⟨by decide, by decide⟩

/-- C2 amended: the ESTABLISHED and FIN_WAIT handlers, which guard the
assignment of `unacked_seq` with `unacked_seq < seg.ack ≤ next`, preserve
SND.UNA ≤ SND.NXT; the CLOSE_WAIT/LAST_ACK handler instead assigns
`unacked_seq = seg.ack` unconditionally and preserves the invariant exactly
when `seg.ack ≤ send.next`. -/
theorem c2_una_le_next_amended :
    (∀ (s : Socket) (pkt : TCPPacket) (now : Nat)
        (r : Socket × List TCPPacket × List TCPEventKind),
      established_handler s pkt now = some r →
      s.send_param.unacked_seq ≤ s.send_param.next →
      r.1.send_param.unacked_seq ≤ r.1.send_param.next) ∧
    (∀ (s : Socket) (pkt : TCPPacket) (now : Nat)
        (r : Socket × List TCPPacket × List TCPEventKind),
      finwait_handler s pkt now = some r →
      s.send_param.unacked_seq ≤ s.send_param.next →
      r.1.send_param.unacked_seq ≤ r.1.send_param.next) ∧
    (∀ (s : Socket) (pkt : TCPPacket),
      (close_handler s pkt).send_param.unacked_seq = pkt.ack ∧
        (close_handler s pkt).send_param.next = s.send_param.next ∧
        ((close_handler s pkt).send_param.unacked_seq ≤
            (close_handler s pkt).send_param.next ↔
          pkt.ack ≤ s.send_param.next)) := by
  refine ⟨?_, ?_, fun s pkt => ⟨rfl, rfl, Iff.rfl⟩⟩
  · intro s pkt now r h hinv
    unfold established_handler at h
    split at h
    · rename_i hacc
      have hfr := established_rest_frame h
      rw [hfr.1]
      exact hacc.2
    · split at h
      · cases h
        exact hinv
      · have hfr := established_rest_frame h
        rw [hfr.1]
        exact hinv
  · intro s pkt now r h hinv
    unfold finwait_handler at h
    split at h
    · rename_i hacc
      have hfr := finwait_rest_frame h
      rw [hfr.1]
      exact hacc.2
    · split at h
      · cases h
        exact hinv
      · have hfr := finwait_rest_frame h
        rw [hfr.1]
        exact hinv

/-- C4: ESTABLISHED ACK processing.  If `unacked_seq < seg.ack ≤ next`, the
handler records `unacked_seq = seg.ack` and drains the retransmission queue:
the entries with `seq < seg.ack` are removed (the drain stops at the first
entry with `seq ≥` the new `unacked_seq`), their payload lengths are added to
`send.window`, and one `Acked` event is published per drained entry.  If
`seg.ack > next`, the segment is dropped entirely with no state change, no
emission and no event.  If the ACK bit is unset, the segment is dropped:
nothing is emitted and the receive side is untouched.  If
`seg.ack ≤ unacked_seq`, the out-of-range ACK is discarded: `unacked_seq`
and the retransmission queue are unchanged. -/
theorem c4_established_ack_cases (s : Socket) (pkt : TCPPacket) (now : Nat) :
    (∀ r : Socket × List TCPPacket × List TCPEventKind,
      established_handler s pkt now = some r →
      s.send_param.unacked_seq < pkt.ack → pkt.ack ≤ s.send_param.next →
      r.1.send_param.unacked_seq = pkt.ack ∧
        r.1.retransmission_queue =
          s.retransmission_queue.dropWhile
            (fun e => decide (e.packet.seq < pkt.ack)) ∧
        r.1.send_param.window = s.send_param.window +
          payloadSum (s.retransmission_queue.takeWhile
            (fun e => decide (e.packet.seq < pkt.ack))) ∧
        r.2.2.take (s.retransmission_queue.takeWhile
            (fun e => decide (e.packet.seq < pkt.ack))).length =
          List.replicate (s.retransmission_queue.takeWhile
            (fun e => decide (e.packet.seq < pkt.ack))).length
            TCPEventKind.Acked) ∧
    (s.send_param.next < pkt.ack →
      established_handler s pkt now = some (s, [], [])) ∧
    (∀ r : Socket × List TCPPacket × List TCPEventKind,
      established_handler s pkt now = some r →
      pkt.flag &&& tcpflags.ACK = 0 →
      r.2.1 = [] ∧ r.1.recv_param = s.recv_param ∧ r.1.status = s.status ∧
        r.1.recv_buffer = s.recv_buffer) ∧
    (∀ r : Socket × List TCPPacket × List TCPEventKind,
      established_handler s pkt now = some r →
      pkt.ack ≤ s.send_param.unacked_seq →
      r.1.send_param.unacked_seq = s.send_param.unacked_seq ∧
        r.1.retransmission_queue = s.retransmission_queue) := by
  refine ⟨?_, ?_, ?_, ?_⟩
  · intro r h hlt hle
    unfold established_handler at h
    split at h
    · have hfr := established_rest_frame h
      refine ⟨?_, ?_, ?_, ?_⟩
      · rw [hfr.1]
        rfl
      · rw [hfr.2.1]
        show (drainQueue pkt.ack s.retransmission_queue).1 = _
        rw [drainQueue_eq]
      · rw [hfr.1]
        show s.send_param.window + (drainQueue pkt.ack s.retransmission_queue).2.1 = _
        rw [drainQueue_eq]
      · obtain ⟨t, ht⟩ := hfr.2.2
        rw [ht]
        show (List.replicate (drainQueue pkt.ack s.retransmission_queue).2.2
            TCPEventKind.Acked ++ t).take _ = _
        rw [drainQueue_eq]
        refine List.take_left' ?_
        simp
    · rename_i hnacc
      exact absurd ⟨hlt, hle⟩ hnacc
  · intro hgt
    unfold established_handler
    rw [if_neg (fun hacc => absurd hacc.2 (by omega)), if_pos hgt]
  · intro r h hack0
    unfold established_handler at h
    split at h
    · unfold established_rest at h
      rw [if_pos hack0] at h
      cases h
      exact ⟨rfl, rfl, rfl, rfl⟩
    · split at h
      · cases h
        exact ⟨rfl, rfl, rfl, rfl⟩
      · unfold established_rest at h
        rw [if_pos hack0] at h
        cases h
        exact ⟨rfl, rfl, rfl, rfl⟩
  · intro r h hle
    unfold established_handler at h
    split at h
    · rename_i hacc
      exact absurd hle (by omega)
    · split at h
      · cases h
        exact ⟨rfl, rfl⟩
      · have hfr := established_rest_frame h
        exact ⟨by rw [hfr.1], hfr.2.1⟩

/-- An in-flight data segment with sequence number 10 and two payload
bytes. -/
def c4Pkt1 : TCPPacket :=
  { seq := 10, ack := 0, flag := tcpflags.ACK, window_size := 0, payload := [1, 2] }

/-- An in-flight data segment with sequence number 20 and one payload
byte. -/
def c4Pkt2 : TCPPacket :=
  { seq := 20, ack := 0, flag := tcpflags.ACK, window_size := 0, payload := [3] }

/-- An ESTABLISHED socket holding two unacknowledged segments with sequence
numbers 10 and 20. -/
def c4Socket : Socket :=
  { send_param := { unacked_seq := 10, next := 30, window := 0, initial_seq := 0 },
    recv_param := { next := 100, window := 4, initial_seq := 0, tail := 100 },
    status := TcpStatus.Established,
    recv_buffer := [0, 0, 0, 0],
    retransmission_queue :=
      [ { packet := c4Pkt1, latest_transmission_time := 0, transmission_count := 1 },
        { packet := c4Pkt2, latest_transmission_time := 0, transmission_count := 1 } ] }

/-- A pure ACK acknowledging through 21 on `c4Socket`. -/
def c4Packet : TCPPacket :=
  { seq := 100, ack := 21, flag := tcpflags.ACK, window_size := 9, payload := [] }

/-- The handler result on `c4Socket` and `c4Packet`: the first queue entry
is drained, its two payload bytes return to the send window, one entry with
`seq = 20 < 21`... in fact both entries drain, and two `Acked` fire. -/
def c4Result : Socket × List TCPPacket × List TCPEventKind :=
  ({ send_param := { unacked_seq := 21, next := 30, window := 3, initial_seq := 0 },
     recv_param := { next := 100, window := 4, initial_seq := 0, tail := 100 },
     status := TcpStatus.Established,
     recv_buffer := [0, 0, 0, 0],
     retransmission_queue := [] },
   [], [TCPEventKind.Acked, TCPEventKind.Acked])

/-- Witness for C4 at concrete inputs: an acceptable ACK drains both queued
entries, restores the window, and fires two `Acked` events; an
over-the-window ACK drops the segment with no state change. -/
theorem c4_established_ack_cases_witness :
    (c4Result.1.send_param.unacked_seq = c4Packet.ack ∧
      c4Result.1.retransmission_queue =
        c4Socket.retransmission_queue.dropWhile
          (fun e => decide (e.packet.seq < c4Packet.ack)) ∧
      c4Result.1.send_param.window = c4Socket.send_param.window +
        payloadSum (c4Socket.retransmission_queue.takeWhile
          (fun e => decide (e.packet.seq < c4Packet.ack))) ∧
      c4Result.2.2.take (c4Socket.retransmission_queue.takeWhile
          (fun e => decide (e.packet.seq < c4Packet.ack))).length =
        List.replicate (c4Socket.retransmission_queue.takeWhile
          (fun e => decide (e.packet.seq < c4Packet.ack))).length
          TCPEventKind.Acked) ∧
    established_handler c4Socket
        { seq := 100, ack := 31, flag := tcpflags.ACK, window_size := 9,
          payload := [] } 0 =
      some (c4Socket, [], []) := by
  constructor
  · exact (c4_established_ack_cases c4Socket c4Packet 0).1 c4Result (by decide)
      (by decide) (by decide)
  · exact (c4_established_ack_cases c4Socket
      { seq := 100, ack := 31, flag := tcpflags.ACK, window_size := 9,
        payload := [] } 0).2.1 (by decide)

/-- The buffer position `place` at which `process_payload` stores an inbound
segment: `(buffer_len - recv.window) + (seg.seq - recv.next)`. -/
def ppOffset (s : Socket) (pkt : TCPPacket) : Nat :=
  (s.recv_buffer.length - s.recv_param.window) + (pkt.seq - s.recv_param.next)

/-- The number of bytes `process_payload` copies:
`min(seg.payload.len, buffer_len - place)`. -/
def ppCopied (s : Socket) (pkt : TCPPacket) : Nat :=
  min pkt.payload.length (s.recv_buffer.length - ppOffset s pkt)

/-- C5: on every non-aborting run, `process_payload` stores the payload at
its offset, updates `recv.tail` to `max(recv.tail, seg.seq + copied)`,
advances `recv.next` to the new `recv.tail` and decrements `recv.window` by
`(recv.tail - seg.seq)` exactly when `seg.seq = recv.next` (an out-of-order
segment leaves `recv.next` and `recv.window` unchanged), emits exactly one
pure ACK with `seq = send.next` and `ack = recv.next` when `copied > 0` and
emits nothing when `copied = 0`, and always publishes `DataArrived`. -/
theorem c5_process_payload_behavior (s : Socket) (pkt : TCPPacket) (now : Nat)
    (s' : Socket) (sent : List TCPPacket) (evs : List TCPEventKind)
    (h : process_payload s pkt now = some (s', sent, evs)) :
    evs = [TCPEventKind.DataArrived] ∧
      s'.recv_param.tail =
        max s.recv_param.tail ((pkt.seq + ppCopied s pkt) % u32Mod) ∧
      (pkt.seq = s.recv_param.next →
        s'.recv_param.next = s'.recv_param.tail ∧
        s'.recv_param.window =
          s.recv_param.window - ((s'.recv_param.tail - pkt.seq) % u16Mod)) ∧
      (pkt.seq ≠ s.recv_param.next →
        s'.recv_param.next = s.recv_param.next ∧
        s'.recv_param.window = s.recv_param.window) ∧
      (0 < ppCopied s pkt →
        sent = [{ seq := s.send_param.next, ack := s'.recv_param.next,
                  flag := tcpflags.ACK, window_size := s'.recv_param.window,
                  payload := [] }]) ∧
      (ppCopied s pkt = 0 → sent = []) ∧
      s'.recv_buffer = writeAt s.recv_buffer (ppOffset s pkt)
        (pkt.payload.take (ppCopied s pkt)) := by
  unfold process_payload at h
  split at h
  · exact absurd h (by simp)
  · rename_i used hequ
    split at h
    · exact absurd h (by simp)
    · rename_i delta heqd
      dsimp only at h
      split at h
      · exact absurd h (by simp)
      · rename_i room heqr
        obtain ⟨hwle, rfl⟩ := checkedSub_some hequ
        obtain ⟨hsle, rfl⟩ := checkedSub_some heqd
        obtain ⟨hole, rfl⟩ := checkedSub_some heqr
        have hoff : ppOffset s pkt =
            (s.recv_buffer.length - s.recv_param.window) +
              (pkt.seq - s.recv_param.next) := rfl
        have hcop : ppCopied s pkt =
            min pkt.payload.length
              (s.recv_buffer.length -
                ((s.recv_buffer.length - s.recv_param.window) +
                  (pkt.seq - s.recv_param.next))) := rfl
        split at h
        · exact absurd h (by simp)
        · rename_i sB heqB
          split at heqB
          · rename_i hseq
            split at heqB
            · exact absurd heqB (by simp)
            · rename_i w heqw
              obtain ⟨hwin, rfl⟩ := checkedSub_some heqw
              cases heqB
              split at h
              · rename_i hpos
                rw [send_tcp_packet_pure_ack] at h
                cases h
                refine ⟨rfl, rfl, fun _ => ⟨rfl, rfl⟩, fun hne => absurd hseq hne,
                  fun _ => rfl, fun h0 => ?_, rfl⟩
                rw [hcop] at h0
                exact absurd hpos (by omega)
              · rename_i hnpos
                cases h
                refine ⟨rfl, rfl, fun _ => ⟨rfl, rfl⟩, fun hne => absurd hseq hne,
                  fun hp => ?_, fun _ => rfl, rfl⟩
                rw [hcop] at hp
                exact absurd hp (by omega)
          · rename_i hseq
            cases heqB
            split at h
            · rename_i hpos
              rw [send_tcp_packet_pure_ack] at h
              cases h
              refine ⟨rfl, rfl, fun he => absurd he hseq, fun _ => ⟨rfl, rfl⟩,
                fun _ => rfl, fun h0 => ?_, rfl⟩
              rw [hcop] at h0
              exact absurd hpos (by omega)
            · rename_i hnpos
              cases h
              refine ⟨rfl, rfl, fun he => absurd he hseq, fun _ => ⟨rfl, rfl⟩,
                fun hp => ?_, fun _ => rfl, rfl⟩
              rw [hcop] at hp
              exact absurd hp (by omega)

/-- An ESTABLISHED socket expecting sequence number 100 with an empty
4-byte receive buffer. -/
def c5Socket : Socket :=
  { send_param := { unacked_seq := 10, next := 30, window := 0, initial_seq := 0 },
    recv_param := { next := 100, window := 4, initial_seq := 0, tail := 100 },
    status := TcpStatus.Established,
    recv_buffer := [0, 0, 0, 0],
    retransmission_queue := [] }

/-- An in-order data segment with three payload bytes. -/
def c5Packet : TCPPacket :=
  { seq := 100, ack := 0, flag := tcpflags.ACK, window_size := 9, payload := [1, 2, 3] }

/-- The result of `process_payload` on `c5Socket` and `c5Packet`. -/
def c5Result : Socket × List TCPPacket × List TCPEventKind :=
  ({ send_param := { unacked_seq := 10, next := 30, window := 0, initial_seq := 0 },
     recv_param := { next := 103, window := 1, initial_seq := 0, tail := 103 },
     status := TcpStatus.Established,
     recv_buffer := [1, 2, 3, 0],
     retransmission_queue := [] },
   [{ seq := 30, ack := 103, flag := tcpflags.ACK, window_size := 1, payload := [] }],
   [TCPEventKind.DataArrived])

/-- Witness for C5 at concrete inputs: an in-order 3-byte segment advances
`recv.next` to the new tail 103, shrinks `recv.window` by 3, stores the
bytes at offset 0, emits one pure ACK and publishes `DataArrived`. -/
theorem c5_process_payload_behavior_witness :
    c5Result.2.2 = [TCPEventKind.DataArrived] ∧
      c5Result.1.recv_param.tail =
        max c5Socket.recv_param.tail
          ((c5Packet.seq + ppCopied c5Socket c5Packet) % u32Mod) ∧
      c5Result.1.recv_param.next = c5Result.1.recv_param.tail ∧
      c5Result.1.recv_param.window =
        c5Socket.recv_param.window -
          ((c5Result.1.recv_param.tail - c5Packet.seq) % u16Mod) ∧
      c5Result.2.1 =
        [{ seq := c5Socket.send_param.next, ack := c5Result.1.recv_param.next,
           flag := tcpflags.ACK, window_size := c5Result.1.recv_param.window,
           payload := [] }] ∧
      c5Result.1.recv_buffer = writeAt c5Socket.recv_buffer
        (ppOffset c5Socket c5Packet)
        (c5Packet.payload.take (ppCopied c5Socket c5Packet)) := by
  have h := c5_process_payload_behavior c5Socket c5Packet 0 c5Result.1 c5Result.2.1
    c5Result.2.2 (by decide)
  exact ⟨h.1, h.2.1, (h.2.2.1 (by decide)).1, (h.2.2.1 (by decide)).2,
    h.2.2.2.2.1 (by decide), h.2.2.2.2.2.2⟩

/-- An ESTABLISHED socket with `unacked_seq = 1` and `next = 3`. -/
def c2EstSocket : Socket :=
  { send_param := { unacked_seq := 1, next := 3, window := 4, initial_seq := 0 },
    recv_param := { next := 0, window := 4, initial_seq := 0, tail := 0 },
    status := TcpStatus.Established,
    recv_buffer := [0, 0, 0, 0],
    retransmission_queue := [] }

/-- `c2EstSocket` in state FIN_WAIT_1 instead. -/
def c2FinSocket : Socket :=
  { c2EstSocket with status := TcpStatus.FinWait1 }

/-- A pure ACK with an acceptable ack number 2. -/
def c2AckPacket : TCPPacket :=
  { seq := 0, ack := 2, flag := tcpflags.ACK, window_size := 4, payload := [] }

/-- The handler result on `c2EstSocket` and `c2AckPacket`. -/
def c2EstResult : Socket × List TCPPacket × List TCPEventKind :=
  ({ c2EstSocket with
      send_param := { unacked_seq := 2, next := 3, window := 4, initial_seq := 0 } },
   [], [])

/-- The handler result on `c2FinSocket` and `c2AckPacket`. -/
def c2FinResult : Socket × List TCPPacket × List TCPEventKind :=
  ({ c2FinSocket with
      send_param := { unacked_seq := 2, next := 3, window := 4, initial_seq := 0 } },
   [], [])

/-- Witness for the amended C2 at concrete inputs: the guarded ESTABLISHED
and FIN_WAIT handlers keep `unacked_seq ≤ next`, and `close_handler` copies
the ack field verbatim. -/
theorem c2_una_le_next_amended_witness :
    c2EstResult.1.send_param.unacked_seq ≤ c2EstResult.1.send_param.next ∧
      c2FinResult.1.send_param.unacked_seq ≤ c2FinResult.1.send_param.next ∧
      (close_handler c2Socket c2Packet).send_param.unacked_seq = c2Packet.ack :=
  ⟨c2_una_le_next_amended.1 c2EstSocket c2AckPacket 0 c2EstResult (by decide) (by decide),
   c2_una_le_next_amended.2.1 c2FinSocket c2AckPacket 0 c2FinResult (by decide) (by decide),
   (c2_una_le_next_amended.2.2 c2Socket c2Packet).1⟩

/-- The states in which `TCP::recv` skips the blocking wait when no data is
buffered (a FIN has been received): CLOSE_WAIT, LAST_ACK, TIME_WAIT. -/
def recvSkipWait : TcpStatus → Bool
  | TcpStatus.CloseWait => true
  | TcpStatus.LastAck => true
  | TcpStatus.TimeWait => true
  | _ => false

/-- The outcome of a completed `TCP::recv` call: the returned byte count,
the bytes delivered to the caller, the new socket state, the segments the
call emitted and the events it published. -/
structure RecvOut where
  count : Nat
  delivered : List Nat
  socket : Socket
  sent : List TCPPacket
  events : List TCPEventKind
deriving DecidableEq

/-- `TCP::recv` from `tcp.rs`: compute
`received_size = recv_buffer.len() - recv.window`, copy
`min(buffer.len(), received_size)` bytes from the front of `recv_buffer`
into the caller's buffer, shift `recv_buffer` left by that many bytes
(`copy_within(copy_size.., 0)` leaves the final `copy_size` bytes in
place), increase `recv.window` by that many bytes, and return the count.
`none` marks a call that does not complete from this state: either
`recv.window > recv_buffer.len()` (the subtraction panics) or nothing is
buffered and the state is not a post-FIN state, so the call blocks on
`DataArrived` and re-reads the socket.  `recv` contains no send or publish
site, so `sent` and `events` are empty. -/
def tcp_recv (s : Socket) (buffer_len : Nat) : Option RecvOut :=
  match checkedSub s.recv_buffer.length s.recv_param.window with
  | none => none
  | some available =>
    if available = 0 ∧ recvSkipWait s.status = false then none
    else
      let copy_size := min buffer_len available
      some { count := copy_size,
             delivered := s.recv_buffer.take copy_size,
             socket :=
               { s with
                 recv_buffer := s.recv_buffer.drop copy_size ++
                   s.recv_buffer.drop (s.recv_buffer.length - copy_size),
                 recv_param := { s.recv_param with
                   window := s.recv_param.window + copy_size } },
             sent := [],
             events := [] }

/-- C6: `recv` returns 0 at once when nothing is buffered and the state is
CLOSE_WAIT, LAST_ACK, or TIME_WAIT; and whenever data is available it copies
exactly `min(buffer_len, available)` bytes from the front of `recv_buffer`,
shifts the buffer left by that many bytes, increments `recv.window` by that
many bytes, and returns the copied count. -/
theorem c6_recv_behavior (s : Socket) (buffer_len : Nat) :
    (s.recv_buffer.length = s.recv_param.window → recvSkipWait s.status = true →
      tcp_recv s buffer_len =
        some { count := 0, delivered := [], socket := s, sent := [], events := [] }) ∧
    (∀ out : RecvOut, tcp_recv s buffer_len = some out →
      0 < s.recv_buffer.length - s.recv_param.window →
      out.count = min buffer_len (s.recv_buffer.length - s.recv_param.window) ∧
        out.delivered = s.recv_buffer.take out.count ∧
        out.socket.recv_buffer = s.recv_buffer.drop out.count ++
          s.recv_buffer.drop (s.recv_buffer.length - out.count) ∧
        out.socket.recv_param.window = s.recv_param.window + out.count) := by
  constructor
  · intro hlen hskip
    obtain ⟨sp, rp, st, rb, rq⟩ := s
    obtain ⟨rnext, rwin, rinit, rtail⟩ := rp
    dsimp only at hlen hskip ⊢
    unfold tcp_recv checkedSub
    dsimp only
    rw [if_pos (le_of_eq hlen.symm)]
    have hz : rb.length - rwin = 0 := by omega
    rw [hz]
    dsimp only
    rw [if_neg (by simp [hskip])]
    simp [List.drop_length]
  · intro out h hpos
    unfold tcp_recv at h
    split at h
    · exact absurd h (by simp)
    · rename_i available heqa
      obtain ⟨hle, rfl⟩ := checkedSub_some heqa
      rw [if_neg (by omega)] at h
      cases h
      exact ⟨rfl, rfl, rfl, rfl⟩

/-- C9: `recv` emits no segment and publishes no event; the only socket
fields it changes are the buffer contents and `recv.window`, which grows by
exactly the returned count; `send_param`, `recv_param.next`,
`recv_param.tail`, `recv_param.initial_seq`, the state, the retransmission
queue, and the buffer length are untouched. -/
theorem c9_recv_frame (s : Socket) (buffer_len : Nat) (out : RecvOut)
    (h : tcp_recv s buffer_len = some out) :
    out.sent = [] ∧ out.events = [] ∧
      out.socket.send_param = s.send_param ∧
      out.socket.recv_param.next = s.recv_param.next ∧
      out.socket.recv_param.tail = s.recv_param.tail ∧
      out.socket.recv_param.initial_seq = s.recv_param.initial_seq ∧
      out.socket.status = s.status ∧
      out.socket.retransmission_queue = s.retransmission_queue ∧
      out.socket.recv_param.window = s.recv_param.window + out.count ∧
      out.socket.recv_buffer.length = s.recv_buffer.length := by
  unfold tcp_recv at h
  split at h
  · exact absurd h (by simp)
  · rename_i available heqa
    obtain ⟨hle, rfl⟩ := checkedSub_some heqa
    split at h
    · exact absurd h (by simp)
    · cases h
      refine ⟨rfl, rfl, rfl, rfl, rfl, rfl, rfl, rfl, rfl, ?_⟩
      simp only [List.length_append, List.length_drop]
      omega

/-- A CLOSE_WAIT socket whose receive buffer has been fully drained. -/
def c6DrainedSocket : Socket :=
  { send_param := { unacked_seq := 0, next := 0, window := 4, initial_seq := 0 },
    recv_param := { next := 0, window := 4, initial_seq := 0, tail := 0 },
    status := TcpStatus.CloseWait,
    recv_buffer := [0, 0, 0, 0],
    retransmission_queue := [] }

/-- An ESTABLISHED socket with two buffered bytes (window 2 of 4). -/
def c6DataSocket : Socket :=
  { send_param := { unacked_seq := 0, next := 0, window := 4, initial_seq := 0 },
    recv_param := { next := 0, window := 2, initial_seq := 0, tail := 0 },
    status := TcpStatus.Established,
    recv_buffer := [7, 8, 0, 0],
    retransmission_queue := [] }

/-- The completed `recv` call on `c6DataSocket` with a 10-byte caller
buffer. -/
def c6DataResult : RecvOut :=
  { count := 2,
    delivered := [7, 8],
    socket :=
      { send_param := { unacked_seq := 0, next := 0, window := 4, initial_seq := 0 },
        recv_param := { next := 0, window := 4, initial_seq := 0, tail := 0 },
        status := TcpStatus.Established,
        recv_buffer := [0, 0, 0, 0],
        retransmission_queue := [] },
    sent := [],
    events := [] }

/-- Witness for C6 at concrete inputs: the drained CLOSE_WAIT socket
returns 0 at once, and the socket with two buffered bytes delivers exactly
those two bytes and re-opens its window by 2. -/
theorem c6_recv_behavior_witness :
    tcp_recv c6DrainedSocket 10 =
        some { count := 0, delivered := [], socket := c6DrainedSocket,
               sent := [], events := [] } ∧
      (c6DataResult.count = min 10 (c6DataSocket.recv_buffer.length -
          c6DataSocket.recv_param.window) ∧
        c6DataResult.delivered = c6DataSocket.recv_buffer.take c6DataResult.count ∧
        c6DataResult.socket.recv_buffer =
          c6DataSocket.recv_buffer.drop c6DataResult.count ++
            c6DataSocket.recv_buffer.drop
              (c6DataSocket.recv_buffer.length - c6DataResult.count) ∧
        c6DataResult.socket.recv_param.window =
          c6DataSocket.recv_param.window + c6DataResult.count) := by
  constructor
  · exact (c6_recv_behavior c6DrainedSocket 10).1 (by decide) (by decide)
  · exact (c6_recv_behavior c6DataSocket 10).2 c6DataResult (by decide) (by decide)

/-- Witness for C9 at a concrete input: the completed call on
`c6DataSocket` emits nothing, publishes nothing, and changes only the
buffer contents and the window. -/
theorem c9_recv_frame_witness :
    c6DataResult.sent = [] ∧ c6DataResult.events = [] ∧
      c6DataResult.socket.send_param = c6DataSocket.send_param ∧
      c6DataResult.socket.recv_param.next = c6DataSocket.recv_param.next ∧
      c6DataResult.socket.recv_param.tail = c6DataSocket.recv_param.tail ∧
      c6DataResult.socket.recv_param.initial_seq =
        c6DataSocket.recv_param.initial_seq ∧
      c6DataResult.socket.status = c6DataSocket.status ∧
      c6DataResult.socket.retransmission_queue =
        c6DataSocket.retransmission_queue ∧
      c6DataResult.socket.recv_param.window =
        c6DataSocket.recv_param.window + c6DataResult.count ∧
      c6DataResult.socket.recv_buffer.length =
        c6DataSocket.recv_buffer.length :=
  c9_recv_frame c6DataSocket 10 c6DataResult (by decide)

/-- `rng.gen_range(PORT_RANGE)` from `tcp.rs`, with the pseudo-random
source modelled as an oracle value `r`: a port drawn from
`[PORT_RANGE_START, PORT_RANGE_END)`. -/
def gen_range_port (r : Nat) : Nat :=
  PORT_RANGE_START + r % (PORT_RANGE_END - PORT_RANGE_START)

/-- The attempt loop of `TCP::select_unused_port`: at most `n` more draws,
the next draw being `gen_range_port (stream i)`; a draw that collides with
no local port in `used` is returned at once; `none` models the
`anyhow::bail!` NoAvailablePort error after the attempts are exhausted. -/
def select_loop (stream : Nat → Nat) (used : List Nat) : Nat → Nat → Option Nat
  | _, 0 => none
  | i, n + 1 =>
    if gen_range_port (stream i) ∈ used then select_loop stream used (i + 1) n
    else some (gen_range_port (stream i))

/-- `TCP::select_unused_port` from `tcp.rs`: the attempt loop runs
`PORT_RANGE.end - PORT_RANGE.start` times. -/
def select_unused_port (stream : Nat → Nat) (used : List Nat) : Option Nat :=
  select_loop stream used 0 (PORT_RANGE_END - PORT_RANGE_START)

theorem select_loop_none_iff (stream : Nat → Nat) (used : List Nat) :
    ∀ (n i : Nat), select_loop stream used i n = none ↔
      ∀ j < n, gen_range_port (stream (i + j)) ∈ used := by
  intro n
  induction n with
  | zero =>
    intro i
    simp [select_loop]
  | succ n ih =>
    intro i
    unfold select_loop
    by_cases hp : gen_range_port (stream i) ∈ used
    · rw [if_pos hp, ih (i + 1)]
      constructor
      · intro hall j hj
        cases j with
        | zero => simpa using hp
        | succ k =>
          have := hall k (by omega)
          rwa [show i + 1 + k = i + (k + 1) by omega] at this
      · intro hall j hj
        have := hall (j + 1) (by omega)
        rwa [show i + (j + 1) = i + 1 + j by omega] at this
    · rw [if_neg hp]
      refine iff_of_false (by simp) (fun hall => hp ?_)
      simpa using hall 0 (by omega)

theorem select_loop_some (stream : Nat → Nat) (used : List Nat) :
    ∀ (n i p : Nat), select_loop stream used i n = some p →
      p ∉ used ∧ PORT_RANGE_START ≤ p ∧ p < PORT_RANGE_END := by
  intro n
  induction n with
  | zero =>
    intro i p h
    exact absurd h (by simp [select_loop])
  | succ n ih =>
    intro i p h
    unfold select_loop at h
    split at h
    · exact ih (i + 1) p h
    · rename_i hp
      cases h
      refine ⟨hp, ?_, ?_⟩
      · exact Nat.le_add_right _ _
      · have hm := Nat.mod_lt (stream i)
          (show 0 < PORT_RANGE_END - PORT_RANGE_START by decide)
        unfold gen_range_port PORT_RANGE_START PORT_RANGE_END at *
        omega

theorem select_loop_skip (stream : Nat → Nat) (used : List Nat) :
    ∀ (m i n : Nat), (∀ j < m, gen_range_port (stream (i + j)) ∈ used) →
      select_loop stream used i (m + n) = select_loop stream used (i + m) n := by
  intro m
  induction m with
  | zero =>
    intro i n _
    simp
  | succ m ih =>
    intro i n hall
    have h0 : gen_range_port (stream i) ∈ used := by simpa using hall 0 (by omega)
    rw [show m + 1 + n = (m + n) + 1 by omega]
    simp only [select_loop]
    rw [if_pos h0]
    rw [ih (i + 1) n (fun j hj => by
      have := hall (j + 1) (by omega)
      rwa [show i + (j + 1) = i + 1 + j by omega] at this)]
    rw [show i + 1 + m = i + (m + 1) by omega]

/-- A pseudo-random stream whose first 20000 draws map to port 40000 and
whose later draws map to port 40001. -/
def c7Stream : Nat → Nat :=
  fun i => if i < 20000 then 0 else 1

/-- C7 counterexample: with local port 40000 occupied and a random stream
whose first 20000 draws all collide, `select_unused_port` fails — yet a loop
of 50000 attempts over the same stream would have succeeded (attempt 20001
yields the free port 40001).  The loop bound is
`PORT_RANGE.end - PORT_RANGE.start = 20000`, not 50000. -/
theorem c7_noport_after_20000_attempts :
    select_unused_port c7Stream [40000] = none ∧
      select_loop c7Stream [40000] 0 50000 = some 40001 ∧
      PORT_RANGE_END - PORT_RANGE_START = 20000 := by
  have hcoll : ∀ j < 20000, gen_range_port (c7Stream (0 + j)) ∈ [40000] := by
    intro j hj
    have hs : c7Stream (0 + j) = 0 := by
      simp only [c7Stream, Nat.zero_add]
      rw [if_pos hj]
    rw [hs]
    decide
  refine ⟨?_, ?_, by decide⟩
  · rw [select_unused_port,
      show PORT_RANGE_END - PORT_RANGE_START = 20000 from by decide,
      select_loop_none_iff c7Stream [40000] 20000 0]
    exact hcoll
  · rw [show (50000 : Nat) = 20000 + 30000 from by norm_num,
      select_loop_skip c7Stream [40000] 20000 0 30000 hcoll,
      show (0 + 20000 : Nat) = 20000 from by norm_num,
      show (30000 : Nat) = 29999 + 1 from by norm_num]
    unfold select_loop
    rw [if_neg (by decide)]
    decide

/-- C7 amended: `select_unused_port` draws each attempt from
`[40000, 60000)`, returns only a port that collides with no existing local
port in the table, and fails with the NoAvailablePort error only after
`PORT_RANGE.end - PORT_RANGE.start = 20000` attempts (not 50000) have all
collided. -/
theorem c7_port_selection_amended (stream : Nat → Nat) (used : List Nat) :
    (∀ p, select_unused_port stream used = some p →
      p ∉ used ∧ PORT_RANGE_START ≤ p ∧ p < PORT_RANGE_END) ∧
    (select_unused_port stream used = none →
      ∀ j < PORT_RANGE_END - PORT_RANGE_START,
        gen_range_port (stream j) ∈ used) := by
  constructor
  · intro p h
    exact select_loop_some stream used _ 0 p h
  · intro h j hj
    have := (select_loop_none_iff stream used _ 0).mp h j hj
    simpa using this

/-- Witness for the amended C7 at concrete inputs: with an empty table the
first draw 40005 is returned (in range, no collision), and with port 40000
occupied and a constant colliding stream the selector fails only after every
one of the 20000 draws collided — attempt 0 in particular collides. -/
theorem c7_port_selection_amended_witness :
    ((40005 : Nat) ∉ ([] : List Nat) ∧ PORT_RANGE_START ≤ 40005 ∧
        (40005 : Nat) < PORT_RANGE_END) ∧
      gen_range_port ((fun _ => 0) 0) ∈ [(40000 : Nat)] := by
  constructor
  · refine (c7_port_selection_amended (fun _ => 5) []).1 40005 ?_
    rw [select_unused_port,
      show PORT_RANGE_END - PORT_RANGE_START = 19999 + 1 from by decide]
    unfold select_loop
    rw [if_neg (by decide)]
    decide
  · refine (c7_port_selection_amended (fun _ => 0) [40000]).2 ?_ 0 (by decide)
    rw [select_unused_port, select_loop_none_iff (fun _ => 0) [40000] _ 0]
    intro j hj
    decide

/-- The per-socket outcome of one tick of the timer loop: the new
retransmission queue, the new send window, the events published, and the
segments retransmitted. -/
structure TimerResult where
  queue : List RetransmissionQueueEntry
  window : Nat
  events : List TCPEventKind
  retransmitted : List TCPPacket
deriving DecidableEq

/-- The per-socket loop body of `TCP::timer` from `tcp.rs`.  For each entry
popped from the front: if `unacked_seq > entry.seq` it is acked — its
payload length returns to the send window, `Acked` is published, and
`ConnectionClosed` is published too when it carried FIN in state LAST_ACK;
else if its age is below `RETRANSMITTION_TIMEOUT` it is pushed back on the
front and the tick stops; else if `transmission_count < MAX_TRANSMITTION`
the stored segment is resent, the count bumped, the entry stamped `now` and
moved to the tail, and the tick stops; otherwise the entry is given up
(dropped), publishing `ConnectionClosed` when it carried FIN in state
LAST_ACK, FIN_WAIT_1, or FIN_WAIT_2. -/
def timer_loop (now una : Nat) (status : TcpStatus) :
    Nat → List RetransmissionQueueEntry → TimerResult
  | window, [] => { queue := [], window := window, events := [], retransmitted := [] }
  | window, e :: rest =>
    if e.packet.seq < una then
      let evs := TCPEventKind.Acked ::
        (if 0 < e.packet.flag &&& tcpflags.FIN ∧ status = TcpStatus.LastAck then
          [TCPEventKind.ConnectionClosed]
         else [])
      let r := timer_loop now una status (window + e.packet.payload.length) rest
      { r with events := evs ++ r.events }
    else if now - e.latest_transmission_time < RETRANSMITTION_TIMEOUT then
      { queue := e :: rest, window := window, events := [], retransmitted := [] }
    else if e.transmission_count < MAX_TRANSMITTION then
      { queue := rest ++
          [{ e with transmission_count := e.transmission_count + 1,
                    latest_transmission_time := now }],
        window := window, events := [], retransmitted := [e.packet] }
    else
      let evs :=
        if 0 < e.packet.flag &&& tcpflags.FIN ∧
            (status = TcpStatus.LastAck ∨ status = TcpStatus.FinWait1 ∨
              status = TcpStatus.FinWait2) then
          [TCPEventKind.ConnectionClosed]
        else []
      let r := timer_loop now una status window rest
      { r with events := evs ++ r.events }

/-- C8: when the entry at the head of the queue is unacknowledged, its age
has reached the RTO, and its transmission count has reached
`MAX_TRANSMITTION`, the timer gives the entry up: it is removed from the
queue and not retransmitted (queue, window and retransmissions continue
exactly as for the rest of the queue), and a `ConnectionClosed` event is
published for this socket if and only if the dropped entry carried the FIN
flag and the socket state is LAST_ACK, FIN_WAIT_1, or FIN_WAIT_2. -/
theorem c8_timer_giveup (now una window : Nat) (status : TcpStatus)
    (e : RetransmissionQueueEntry) (rest : List RetransmissionQueueEntry)
    (hnoack : ¬ e.packet.seq < una)
    (hage : RETRANSMITTION_TIMEOUT ≤ now - e.latest_transmission_time)
    (hmax : MAX_TRANSMITTION ≤ e.transmission_count) :
    (timer_loop now una status window (e :: rest)).queue =
        (timer_loop now una status window rest).queue ∧
      (timer_loop now una status window (e :: rest)).window =
        (timer_loop now una status window rest).window ∧
      (timer_loop now una status window (e :: rest)).retransmitted =
        (timer_loop now una status window rest).retransmitted ∧
      (timer_loop now una status window (e :: rest)).events =
        (if 0 < e.packet.flag &&& tcpflags.FIN ∧
            (status = TcpStatus.LastAck ∨ status = TcpStatus.FinWait1 ∨
              status = TcpStatus.FinWait2) then
          [TCPEventKind.ConnectionClosed]
         else []) ++ (timer_loop now una status window rest).events := by
  have hstep : timer_loop now una status window (e :: rest) =
      { timer_loop now una status window rest with
        events :=
          (if 0 < e.packet.flag &&& tcpflags.FIN ∧
              (status = TcpStatus.LastAck ∨ status = TcpStatus.FinWait1 ∨
                status = TcpStatus.FinWait2) then
            [TCPEventKind.ConnectionClosed]
           else []) ++ (timer_loop now una status window rest).events } := by
    simp only [timer_loop]
    rw [if_neg hnoack, if_neg (by omega), if_neg (by omega)]
  rw [hstep]
  exact ⟨rfl, rfl, rfl, rfl⟩

/-- A FIN|ACK retransmission entry that has been sent five times, last at
time 0. -/
def c8Entry : RetransmissionQueueEntry :=
  { packet := { seq := 7, ack := 1, flag := tcpflags.FIN ||| tcpflags.ACK,
                window_size := 0, payload := [] },
    latest_transmission_time := 0, transmission_count := 5 }

/-- Witness for C8 at concrete inputs: at time 3 s, a LAST_ACK socket whose
head entry is the five-times-sent FIN gives it up and publishes
`ConnectionClosed`. -/
theorem c8_timer_giveup_witness :
    (timer_loop 3 7 TcpStatus.LastAck 10 [c8Entry]).queue =
        (timer_loop 3 7 TcpStatus.LastAck 10 []).queue ∧
      (timer_loop 3 7 TcpStatus.LastAck 10 [c8Entry]).window =
        (timer_loop 3 7 TcpStatus.LastAck 10 []).window ∧
      (timer_loop 3 7 TcpStatus.LastAck 10 [c8Entry]).retransmitted =
        (timer_loop 3 7 TcpStatus.LastAck 10 []).retransmitted ∧
      (timer_loop 3 7 TcpStatus.LastAck 10 [c8Entry]).events =
        (if 0 < c8Entry.packet.flag &&& tcpflags.FIN ∧
            (TcpStatus.LastAck = TcpStatus.LastAck ∨
              TcpStatus.LastAck = TcpStatus.FinWait1 ∨
              TcpStatus.LastAck = TcpStatus.FinWait2) then
          [TCPEventKind.ConnectionClosed]
         else []) ++ (timer_loop 3 7 TcpStatus.LastAck 10 []).events :=
  c8_timer_giveup 3 7 10 TcpStatus.LastAck c8Entry [] (by decide) (by decide)
    (by decide)

theorem send_tcp_packet_snd (s : Socket) (seq ack flag : Nat)
    (payload : List Nat) (now : Nat) :
    (send_tcp_packet s seq ack flag payload now).2 =
      { seq := seq, ack := ack, flag := flag,
        window_size := s.recv_param.window, payload := payload } := by
  unfold send_tcp_packet
  split
  · rfl
  · rfl

/-- One iteration of the body of `TCP::send` from `tcp.rs`: emit
`buffer[cursor..cursor + send_size]` with flags ACK, `seq = send.next`,
`ack = recv.next` (where
`send_size = min(MSS, min(send.window, buffer.len() - cursor))`), then
advance `send.next` and shrink `send.window` by `send_size`. -/
def sendFragment (s : Socket) (buffer : List Nat) (cursor now : Nat) :
    Socket × TCPPacket :=
  let send_size := min MSS (min s.send_param.window (buffer.length - cursor))
  let r := send_tcp_packet s s.send_param.next s.recv_param.next tcpflags.ACK
    ((buffer.drop cursor).take send_size) now
  ({ r.1 with send_param :=
      { r.1.send_param with
        next := (r.1.send_param.next + send_size) % u32Mod,
        window := r.1.send_param.window - send_size } },
   r.2)

/-- The outcome of `TCP::send`: normal return with the final socket state
and the emitted segments, one of the two error returns, or `blocked`
(the call is still waiting — the fuel or the wake oracle ran out, modelling
nontermination rather than a return). -/
inductive SendOutcome
  | ok (socket : Socket) (sent : List TCPPacket)
  | errNoSuchSocket
  | errTransport
  | blocked
deriving DecidableEq

/-- `TCP::send` from `tcp.rs`, with the sequential (interference-free)
semantics of the loop.  `sock` is the table lookup of the socket
(`none` models a key absent from the table, the NoSuchSocket error);
`wakes` supplies the socket the call re-reads from the table after each
Acked wait taken when `send_size = 0` (the code releases the lock, blocks,
re-acquires, and looks the key up again); `txOk` supplies the outcome of
each transport-level send (`headD true`: an exhausted oracle means
success), a failure propagating as TransportSendFailed.  No field of the
socket other than `send_param` and the retransmission queue is read or
written: in particular the TCP state is never inspected. -/
def tcp_send : Nat → Option Socket → List (Option Socket) → List Bool →
    List Nat → Nat → Nat → SendOutcome
  | 0, _, _, _, _, _, _ => SendOutcome.blocked
  | _ + 1, none, _, _, _, _, _ => SendOutcome.errNoSuchSocket
  | fuel + 1, some s, wakes, txOk, buffer, cursor, now =>
    if buffer.length ≤ cursor then SendOutcome.ok s []
    else if min MSS (min s.send_param.window (buffer.length - cursor)) = 0 then
      match wakes with
      | [] => SendOutcome.blocked
      | w :: ws => tcp_send fuel w ws txOk buffer cursor now
    else if txOk.headD true = false then SendOutcome.errTransport
    else
      match tcp_send fuel (some (sendFragment s buffer cursor now).1) wakes
          txOk.tail buffer
          (cursor + min MSS (min s.send_param.window (buffer.length - cursor)))
          now with
      | SendOutcome.ok sf sent =>
        SendOutcome.ok sf ((sendFragment s buffer cursor now).2 :: sent)
      | out => out

/-- C10: `send` performs no TCP-state precondition check.  For a socket
present in the table — in any state whatsoever — as long as the key stays
in the table across Acked waits and the transport does not fail, the call
never returns an error; and every normal return has handed the entire
remaining buffer to the transport, in order, as the concatenation of the
emitted fragments. -/
theorem c10_send_any_state :
    ∀ (fuel : Nat) (s : Socket) (wakes : List (Option Socket)) (txOk : List Bool)
      (buffer : List Nat) (cursor now : Nat),
      (∀ w ∈ wakes, w ≠ none) → (∀ b ∈ txOk, b = true) →
      (tcp_send fuel (some s) wakes txOk buffer cursor now ≠
          SendOutcome.errNoSuchSocket ∧
        tcp_send fuel (some s) wakes txOk buffer cursor now ≠
          SendOutcome.errTransport) ∧
      (∀ (sf : Socket) (sent : List TCPPacket),
        tcp_send fuel (some s) wakes txOk buffer cursor now =
          SendOutcome.ok sf sent →
        (sent.map TCPPacket.payload).flatten = buffer.drop cursor) := by
  intro fuel
  induction fuel with
  | zero =>
    intro s wakes txOk buffer cursor now hw ht
    refine ⟨⟨by simp [tcp_send], by simp [tcp_send]⟩, ?_⟩
    intro sf sent h
    exact absurd h (by simp [tcp_send])
  | succ fuel ih =>
    intro s wakes txOk buffer cursor now hw ht
    by_cases hdone : buffer.length ≤ cursor
    · have hstep : tcp_send (fuel + 1) (some s) wakes txOk buffer cursor now =
          SendOutcome.ok s [] := by
        simp [tcp_send, hdone]
      rw [hstep]
      refine ⟨⟨by simp, by simp⟩, ?_⟩
      intro sf sent h
      cases h
      simp [List.drop_eq_nil_of_le hdone]
    · by_cases hzero :
          min MSS (min s.send_param.window (buffer.length - cursor)) = 0
      · cases wakes with
        | nil =>
          have hstep : tcp_send (fuel + 1) (some s) [] txOk buffer cursor now =
              SendOutcome.blocked := by
            simp [tcp_send, hdone, hzero]
          rw [hstep]
          refine ⟨⟨by simp, by simp⟩, ?_⟩
          intro sf sent h
          exact absurd h (by simp)
        | cons w ws =>
          obtain ⟨s1, rfl⟩ : ∃ s1, w = some s1 := by
            cases hww : w with
            | none => exact absurd hww (hw w (List.mem_cons_self w ws))
            | some s1 => exact ⟨s1, rfl⟩
          have hstep : tcp_send (fuel + 1) (some s) (some s1 :: ws) txOk buffer
              cursor now = tcp_send fuel (some s1) ws txOk buffer cursor now := by
            simp [tcp_send, hdone, hzero]
          rw [hstep]
          exact ih s1 ws txOk buffer cursor now
            (fun x hx => hw x (List.mem_cons_of_mem _ hx)) ht
      · have htx : txOk.headD true = true := by
          cases txOk with
          | nil => rfl
          | cons b bs => exact ht b (List.mem_cons_self b bs)
        have httail : ∀ b ∈ txOk.tail, b = true := by
          intro b hb
          exact ht b (List.mem_of_mem_tail hb)
        have hrec := ih (sendFragment s buffer cursor now).1 wakes txOk.tail buffer
          (cursor + min MSS (min s.send_param.window (buffer.length - cursor)))
          now hw httail
        have hstep : tcp_send (fuel + 1) (some s) wakes txOk buffer cursor now =
            match tcp_send fuel (some (sendFragment s buffer cursor now).1) wakes
                txOk.tail buffer
                (cursor + min MSS (min s.send_param.window (buffer.length - cursor)))
                now with
            | SendOutcome.ok sf sent =>
              SendOutcome.ok sf ((sendFragment s buffer cursor now).2 :: sent)
            | out => out := by
          simp only [tcp_send, if_neg hdone, if_neg hzero, htx]
          rw [if_neg (by simp)]
        rw [hstep]
        cases hrec2 : tcp_send fuel (some (sendFragment s buffer cursor now).1) wakes
            txOk.tail buffer
            (cursor + min MSS (min s.send_param.window (buffer.length - cursor)))
            now with
        | ok sf2 sent2 =>
          refine ⟨⟨by simp, by simp⟩, ?_⟩
          intro sf sent h
          cases h
          have hjoin := hrec.2 sf2 sent2 hrec2
          have hpay : (sendFragment s buffer cursor now).2.payload =
              (buffer.drop cursor).take
                (min MSS (min s.send_param.window (buffer.length - cursor))) := by
            simp [sendFragment, send_tcp_packet_snd]
          simp only [List.map_cons, List.flatten, hpay, hjoin]
          rw [← List.drop_drop]
          exact List.take_append_drop _ _
        | errNoSuchSocket =>
          rw [hrec2] at hrec
          exact absurd rfl hrec.1.1
        | errTransport =>
          rw [hrec2] at hrec
          exact absurd rfl hrec.1.2
        | blocked =>
          refine ⟨⟨by simp, by simp⟩, ?_⟩
          intro sf sent h
          exact absurd h (by simp)

/-- A LISTEN-state socket: `send` has no state precondition, so even this
socket fragments and transmits. -/
def c10Socket : Socket :=
  { send_param := { unacked_seq := 0, next := 10, window := 5, initial_seq := 0 },
    recv_param := { next := 20, window := 4, initial_seq := 0, tail := 0 },
    status := TcpStatus.Listen,
    recv_buffer := [0, 0, 0, 0],
    retransmission_queue := [] }

/-- The single fragment `send` emits for `c10Socket` and buffer
`[1, 2, 3]`. -/
def c10Pkt : TCPPacket :=
  { seq := 10, ack := 20, flag := tcpflags.ACK, window_size := 4,
    payload := [1, 2, 3] }

/-- `c10Socket` after the fragment: `next` advanced and `window` shrunk by
3, the fragment enqueued for retransmission. -/
def c10Final : Socket :=
  { send_param := { unacked_seq := 0, next := 13, window := 2, initial_seq := 0 },
    recv_param := { next := 20, window := 4, initial_seq := 0, tail := 0 },
    status := TcpStatus.Listen,
    recv_buffer := [0, 0, 0, 0],
    retransmission_queue :=
      [{ packet := c10Pkt, latest_transmission_time := 0, transmission_count := 1 }] }

/-- Witness for C10 at concrete inputs: a LISTEN socket sends a 3-byte
buffer without error, and the emitted fragments concatenate to the whole
buffer. -/
theorem c10_send_any_state_witness :
    (tcp_send 2 (some c10Socket) [] [] [1, 2, 3] 0 0 ≠
        SendOutcome.errNoSuchSocket ∧
      tcp_send 2 (some c10Socket) [] [] [1, 2, 3] 0 0 ≠
        SendOutcome.errTransport) ∧
      (([c10Pkt].map TCPPacket.payload).flatten = List.drop 0 [1, 2, 3]) := by
  constructor
  · exact (c10_send_any_state 2 c10Socket [] [] [1, 2, 3] 0 0 (by simp)
      (by simp)).1
  · exact (c10_send_any_state 2 c10Socket [] [] [1, 2, 3] 0 0 (by simp)
      (by simp)).2 c10Final [c10Pkt] (by decide)

end ToyTcp
